import Mathlib

/-!
# SwatiBD41-CW: movie query service (`src/index.js`)

A shallow embedding of the Express service of `src/index.js`: four query
functions over one SQLite table `movies`, and the five `GET` handlers.

* The JavaScript side (`fetchAllMovies`, `fetchMoviesByGenre`,
  `fetchMoviesByID`, `fetchMoviesByRealeaseYear`, the handlers) is translated
  from the source, statement by statement, in a monad `Js` that carries the
  module-level variable `db` and can reject with a JavaScript error.
* The storage driver (`db.all`) is a library, not code of the repository.  It is
  modelled here as an interpreter of the statement text over an ordered list of
  rows, with SQLite's comparison rules for the column affinities of the table.
  The rows it hands to JavaScript hold JavaScript numbers: a stored 64-bit
  integer arrives rounded to the nearest double (`toJsNumber`).
-/

namespace SwatiBD41

/-! ## Data model -/

/-- A decimal literal `mantissa / 10 ^ scale`, e.g. `4.8` is `⟨48, 1⟩`.  The
`rating` column is only ever carried through `SELECT *`, never computed on. -/
structure Decimal where
  mantissa : Int
  scale : Nat
  deriving DecidableEq, Repr

/-- Modelled from the spec: the row type of table `movies`, whose schema is not
part of `src/` (spec section 3: `id` integer primary key, `title`, `director`,
`genre`, `actor` text, `release_year` integer, `rating` decimal,
`box_office_collection` numeric).  The doc comments of `src/index.js` show rows
of this shape. -/
structure Movie where
  id : Int
  title : String
  director : String
  genre : String
  release_year : Int
  rating : Decimal
  actor : String
  box_office_collection : Int
  deriving DecidableEq, Repr

/-- SQLite stores integers in 64 bits, two's complement. -/
def isInt64 (i : Int) : Prop := -9223372036854775808 ≤ i ∧ i ≤ 9223372036854775807

instance (i : Int) : Decidable (isInt64 i) := by unfold isInt64; infer_instance

/-- The backing store behind the handle `db`: the rows of `movies` as stored, in
storage order, and the one part of the engine this development leaves uninterpreted,
`realTextEqInt t i`: whether the text `t`, once read as a floating-point REAL,
compares equal to the stored integer `i`. -/
structure Database where
  rows : List Movie
  realTextEqInt : String → Int → Bool

/-- The primary key: no two rows of the store share an `id`. -/
def Database.uniqueIds (d : Database) : Prop := (d.rows.map Movie.id).Nodup

instance (d : Database) : Decidable d.uniqueIds := by
  unfold Database.uniqueIds; infer_instance

/-! ## Stored integers as JavaScript numbers -/

/-- Number of low bits to drop from `n` so that at most 53 bits remain; `fuel`
bounds the search (64 covers every 64-bit magnitude). -/
def excessBits : Nat → Nat → Nat
  | 0, _ => 0
  | fuel + 1, n => if n < 9007199254740992 then 0 else excessBits fuel (n / 2) + 1

/-- The double nearest to the 64-bit magnitude `n`, ties to the even
significand: up to `2 ^ 53 = 9007199254740992` every integer is a double;
above, the low bits beyond the 53-bit significand are rounded away. -/
def roundToDouble (n : Nat) : Nat :=
  if n ≤ 9007199254740992 then n
  else
    let e := excessBits 64 n
    let q := n / 2 ^ e
    let r := n % 2 ^ e
    let half := 2 ^ (e - 1)
    (if half < r ∨ (r = half ∧ q % 2 = 1) then q + 1 else q) * 2 ^ e

/-- The JavaScript number that the driver builds from a stored 64-bit integer
(the conversion of a 64-bit integer to a double). -/
def toJsNumber (i : Int) : Int :=
  if i < 0 then -(roundToDouble i.natAbs : Int) else (roundToDouble i.natAbs : Int)

/-- The integer `i` is a double: JavaScript holds it exactly. -/
def jsExact (i : Int) : Prop := toJsNumber i = i

instance (i : Int) : Decidable (jsExact i) := by unfold jsExact; infer_instance

/-- The row object that JavaScript receives for a stored row: the integer
columns become JavaScript numbers, the texts and the REAL column (a double
already) are unchanged. -/
def Movie.toJs (m : Movie) : Movie :=
  { m with
    id := toJsNumber m.id
    release_year := toJsNumber m.release_year
    box_office_collection := toJsNumber m.box_office_collection }

/-- Every integer column of the row is a double: JavaScript receives the row as
it is stored. -/
def Movie.jsExact (m : Movie) : Prop :=
  SwatiBD41.jsExact m.id ∧ SwatiBD41.jsExact m.release_year ∧
    SwatiBD41.jsExact m.box_office_collection

instance (m : Movie) : Decidable m.jsExact := by unfold Movie.jsExact; infer_instance

/-! ## SQLite: reading a text as a number (`sqlite3AtoF`, `sqlite3Atoi64`) -/

/-- SQLite's `sqlite3Isspace`: space, tab, line feed, vertical tab, form feed,
carriage return. -/
def isSpace (c : Char) : Bool :=
  c.toNat = 32 || (9 ≤ c.toNat && c.toNat ≤ 13)

/-- Value of a run of decimal digits, most significant first. -/
def digitsValue (ds : List Char) : Nat :=
  ds.foldl (fun acc c => 10 * acc + (c.toNat - 48)) 0

/-- Strip one optional sign; the flag tells whether it was `-`. -/
def takeSign : List Char → Bool × List Char
  | '-' :: t => (true, t)
  | '+' :: t => (false, t)
  | z => (false, z)

/-- The optional fraction: `.` and digits.  Returns whether a `.` was read, the
number of fraction digits and the rest. -/
def takeFraction : List Char → Bool × Nat × List Char
  | '.' :: t => (true, (t.span Char.isDigit).1.length, (t.span Char.isDigit).2)
  | z => (false, 0, z)

/-- The optional exponent: `e` or `E`, an optional sign, digits.  Returns
whether an exponent marker was read, whether the exponent is well formed
(`eValid`) and the rest. -/
def takeExponent : List Char → Bool × Bool × List Char
  | [] => (false, true, [])
  | c :: t =>
    if c = 'e' ∨ c = 'E' then
      match t with
      | [] => (true, false, [])
      | _ =>
        let ds := (takeSign t).2.span Char.isDigit
        (true, !ds.1.isEmpty, ds.2)
    else (false, true, c :: t)

/-- What NUMERIC affinity makes of a bound text. -/
inductive Numeric where
  /-- An integer literal that fits 64 bits: becomes INTEGER. -/
  | int (i : Int)
  /-- Any other well-formed number (fraction, exponent, or too large for 64
  bits): becomes a floating-point REAL. -/
  | real
  /-- Not a number: stays TEXT. -/
  | notNumeric
  deriving DecidableEq, Repr

/-- NUMERIC affinity applied to a text operand (`applyNumericAffinity`): leading
and trailing white space is skipped, then an optional sign, digits, an optional
fraction and an optional exponent must use up the whole text, with at least one
digit in the significand. -/
def applyNumericAffinity (text : String) : Numeric :=
  let z := text.data.dropWhile isSpace
  let sgn := takeSign z
  let ds := sgn.2.span Char.isDigit
  let frac := takeFraction ds.2
  let ex := takeExponent frac.2.2
  let rest := ex.2.2.dropWhile isSpace
  if rest.isEmpty ∧ 0 < ds.1.length + frac.2.1 ∧ ex.2.1 = true then
    if frac.1 = false ∧ ex.1 = false then
      let v : Int := if sgn.1 then -(digitsValue ds.1 : Int) else (digitsValue ds.1 : Int)
      if isInt64 v then .int v else .real
    else .real
  else .notNumeric

/-- The comparison `column = ?` for a column of INTEGER affinity holding the
integer `stored`, against a bound text: the text gets NUMERIC affinity; an
INTEGER is compared exactly, a REAL by the engine's floating-point comparison,
and a text that is not a number is never equal to an integer. -/
def intColumnEq (d : Database) (stored : Int) (param : String) : Bool :=
  match applyNumericAffinity param with
  | .int i => stored = i
  | .real => d.realTextEqInt param stored
  | .notNumeric => false

/-- The comparison `column = ?` for a column of TEXT affinity holding a text,
against a bound text: byte-wise equality (collation BINARY). -/
def textColumnEq (stored : String) (param : String) : Bool :=
  stored = param

/-! ## SQLite: the statements the driver is asked to run -/

/-- Columns of `movies` with TEXT or INTEGER/NUMERIC affinity (the REAL column
`rating` is left out: comparing it is floating-point arithmetic). -/
inductive Column where
  | id | title | director | genre | release_year | actor | box_office_collection
  deriving DecidableEq, Repr

/-- The fragment of SQL interpreted here; every other text is refused. -/
inductive Statement where
  | selectAll
  | selectWhere (c : Column)
  | deleteAll
  | deleteWhere (c : Column)
  deriving DecidableEq, Repr

/-- Close the word being read, if any; keywords and names are case-insensitive
and are kept in lower case. -/
def flushWord (cur : List Char) : List String :=
  if cur.isEmpty then [] else [String.mk (cur.map Char.toLower)]

/-- Tokens of a statement text: words of letters, digits and `_`, and single
punctuation characters; white space separates. -/
def lexSql (cur : List Char) : List Char → List String
  | [] => flushWord cur
  | c :: cs =>
    if isSpace c then flushWord cur ++ lexSql [] cs
    else if c.isAlphanum ∨ c = '_' then lexSql (cur ++ [c]) cs
    else flushWord cur ++ String.singleton c :: lexSql [] cs

/-- Column named by a (lower-case) word. -/
def Column.ofName (name : String) : Option Column :=
  if name = "id" then some .id
  else if name = "title" then some .title
  else if name = "director" then some .director
  else if name = "genre" then some .genre
  else if name = "release_year" then some .release_year
  else if name = "actor" then some .actor
  else if name = "box_office_collection" then some .box_office_collection
  else none

/-- Read a statement text: `SELECT * FROM movies`, `DELETE FROM movies`, each
with an optional `WHERE column = ?`. -/
def parseStatement (query : String) : Option Statement :=
  match lexSql [] query.data with
  | [s, star, f, t] =>
    if s = "select" ∧ star = "*" ∧ f = "from" ∧ t = "movies" then some .selectAll else none
  | [dl, f, t] =>
    if dl = "delete" ∧ f = "from" ∧ t = "movies" then some .deleteAll else none
  | [s, star, f, t, w, c, e, q] =>
    if s = "select" ∧ star = "*" ∧ f = "from" ∧ t = "movies" ∧ w = "where" ∧ e = "=" ∧ q = "?"
    then (Column.ofName c).map .selectWhere else none
  | [dl, f, t, w, c, e, q] =>
    if dl = "delete" ∧ f = "from" ∧ t = "movies" ∧ w = "where" ∧ e = "=" ∧ q = "?"
    then (Column.ofName c).map .deleteWhere else none
  | _ => none

/-- Number of `?` placeholders of a statement. -/
def Statement.placeholders : Statement → Nat
  | .selectAll => 0
  | .selectWhere _ => 1
  | .deleteAll => 0
  | .deleteWhere _ => 1

/-- Number of `?` characters in a statement text. -/
def countPlaceholders (query : String) : Nat :=
  query.data.count '?'

/-- Whether row `m` satisfies `c = ?` with the text `param` bound. -/
def Column.eqParam (d : Database) (c : Column) (m : Movie) (param : String) : Bool :=
  match c with
  | .id => intColumnEq d m.id param
  | .title => textColumnEq m.title param
  | .director => textColumnEq m.director param
  | .genre => textColumnEq m.genre param
  | .release_year => intColumnEq d m.release_year param
  | .actor => textColumnEq m.actor param
  | .box_office_collection => intColumnEq d m.box_office_collection param

/-- A JavaScript error value. -/
inductive JsError where
  /-- The `TypeError` thrown by reading a property of `undefined`. -/
  | typeError
  /-- An error reported by the SQLite driver, with its result code. -/
  | sqliteError (code : String)
  deriving DecidableEq, Repr

deriving instance DecidableEq for Except

/-- Modelled from the spec: the driver's read operation `all` ("fetch all rows
matching a query with bound parameters", spec section 4.1), a library function
outside `src/`.  It runs the statement `query` with the texts `params` bound to
its placeholders and gives the result rows, in storage order, as the row objects
JavaScript receives (`Movie.toJs`), together with the store after the statement.
A bind value beyond the placeholders is refused; a placeholder left unbound is
NULL, which equals nothing. -/
def Database.all (d : Database) (query : String) (params : List String) :
    Except JsError (List Movie × Database) :=
  match parseStatement query with
  | none => .error (.sqliteError "SQLITE_ERROR")
  | some stmt =>
    if stmt.placeholders < params.length then .error (.sqliteError "SQLITE_RANGE")
    else
      match stmt, params with
      | .selectAll, _ => .ok (d.rows.map Movie.toJs, d)
      | .selectWhere c, p :: _ =>
        .ok ((d.rows.filter (fun m => c.eqParam d m p)).map Movie.toJs, d)
      | .selectWhere _, [] => .ok ([], d)
      | .deleteAll, _ => .ok ([], { d with rows := [] })
      | .deleteWhere c, p :: _ =>
        .ok ([], { d with rows := d.rows.filter (fun m => !c.eqParam d m p) })
      | .deleteWhere _, [] => .ok ([], d)

/-! ## The JavaScript module state and its computations -/

/-- One call made to the driver: the statement text and the bind values. -/
structure Call where
  query : String
  params : List String
  deriving DecidableEq, Repr

/-- State of the module: the variable `db` (`let db;`, line 10: `undefined`
until the `open` of lines 16-20 has resolved, and for ever if it rejects), and a
record of the calls that reached the driver, oldest first. -/
structure World where
  db : Option Database
  sent : List Call

/-- An `async` computation: run in a module state, it resolves to a value or
rejects with an error, and leaves a module state. -/
def Js (α : Type) : Type := World → Except JsError α × World

instance : Monad Js where
  pure a := fun w => (.ok a, w)
  bind x f := fun w =>
    match x w with
    | (.ok a, w1) => f a w1
    | (.error e, w1) => (.error e, w1)

/-- The expression `await db.all(query, params)`.  With `db` undefined, reading
`db.all` throws a `TypeError` and nothing reaches the driver. -/
def dbAll (query : String) (params : List String) : Js (List Movie) := fun w =>
  match w.db with
  | none => (.error .typeError, w)
  | some d =>
    match d.all query params with
    | .error e => (.error e, { w with sent := w.sent ++ [⟨query, params⟩] })
    | .ok (rows, d1) => (.ok rows, { db := some d1, sent := w.sent ++ [⟨query, params⟩] })

/-! ## `src/index.js`: query functions -/

/-- A JSON value of a response body. -/
inductive JsonValue where
  | str (s : String)
  | row (m : Movie)
  | rows (ms : List Movie)
  deriving DecidableEq, Repr

/-- An object with a single property, such as `{ movies: response }`. -/
structure Envelope where
  key : String
  value : JsonValue
  deriving DecidableEq, Repr

/-- Lines 131-135 of `src/index.js`. -/
def fetchAllMovies : Js Envelope := do
  let query := "SELECT * FROM movies"
  let response ← dbAll query []
  return { key := "movies", value := .rows response }

/-- Lines 181-185. -/
def fetchMoviesByGenre (genre : String) : Js Envelope := do
  let query := "SELECT * FROM movies Where genre = ?"
  let response ← dbAll query [genre]
  return { key := "movies", value := .rows response }

/-- Lines 220-224. -/
def fetchMoviesByID (id : String) : Js Envelope := do
  let query := "SELECT * FROM movies WHERE id = ?"
  let response ← dbAll query [id]
  return { key := "movies", value := .rows response }

/-- Lines 271-275. -/
def fetchMoviesByRealeaseYear (year : String) : Js Envelope := do
  let query := "SELECT * FROM movies WHERE release_year = ? "
  let response ← dbAll query [year]
  return { key := "movies", value := .rows response }

/-! ## `src/index.js`: route handlers -/

/-- What `res.status(s).json(body)` sends. -/
structure Response where
  status : Nat
  body : Envelope
  deriving DecidableEq, Repr

/-- A request that one of the five routes matches, with its path parameter. -/
inductive Request where
  | root
  | movies
  | moviesByGenre (genre : String)
  | movieDetails (id : String)
  | moviesByReleaseYear (release_year : String)
  deriving DecidableEq, Repr

/-- The handler of `GET /`, lines 22-24. -/
def getRoot : Js Response :=
  pure { status := 200, body := { key := "message", value := .str "BD4.1 CW - SQL Queries & async/await" } }

/-- The handler of `GET /movies`, lines 137-140. -/
def getMovies : Js Response := do
  let result ← fetchAllMovies
  return { status := 200, body := result }

/-- The handler of `GET /movies/genre/:genre`, lines 188-192. -/
def getMoviesByGenre (genre : String) : Js Response := do
  let result ← fetchMoviesByGenre genre
  return { status := 200, body := result }

/-- The handler of `GET /movies/details/:id`, lines 227-231. -/
def getMovieDetails (id : String) : Js Response := do
  let result ← fetchMoviesByID id
  return { status := 200, body := result }

/-- The handler of `GET /movies/release_year/:release_year`, lines 278-282. -/
def getMoviesByReleaseYear (release_year : String) : Js Response := do
  let result ← fetchMoviesByRealeaseYear release_year
  return { status := 200, body := result }

/-- The application: a request runs the handler of its route.  A rejection means
that the handler threw before `res.status(200).json(..)`: it sent nothing. -/
def app : Request → Js Response
  | .root => getRoot
  | .movies => getMovies
  | .moviesByGenre genre => getMoviesByGenre genre
  | .movieDetails id => getMovieDetails id
  | .moviesByReleaseYear release_year => getMoviesByReleaseYear release_year

/-! ## Sample data: the rows shown in the doc comments of `src/index.js` -/

/-- Row 1 of the doc comments of Exercises 2 and 4. -/
def dangal : Movie :=
  { id := 1, title := "Dangal", director := "Nitesh Tiwari", genre := "Biography",
    release_year := 2016, rating := ⟨48, 1⟩, actor := "Aamir Khan", box_office_collection := 220 }

/-- The row of the doc comment of Exercise 3. -/
def pk : Movie :=
  { id := 3, title := "PK", director := "Rajkumar Hirani", genre := "Comedy",
    release_year := 2014, rating := ⟨46, 1⟩, actor := "Aamir Khan", box_office_collection := 140 }

/-- Row 5 of the doc comment of Exercise 4. -/
def sultan : Movie :=
  { id := 5, title := "Sultan", director := "Ali Abbas Zafar", genre := "Drama",
    release_year := 2016, rating := ⟨43, 1⟩, actor := "Salman Khan", box_office_collection := 120 }

/-- Row 6 of the doc comment of Exercise 2. -/
def sanju : Movie :=
  { id := 6, title := "Sanju", director := "Rajkumar Hirani", genre := "Biography",
    release_year := 2018, rating := ⟨44, 1⟩, actor := "Ranbir Kapoor", box_office_collection := 120 }

/-- A store holding the four documented rows, in `id` order. -/
def sampleDb : Database :=
  { rows := [dangal, pk, sultan, sanju], realTextEqInt := fun _ _ => false }

/-- The module state once `open` has resolved to `sampleDb`. -/
def sampleWorld : World := { db := some sampleDb, sent := [] }

/-- A row whose id is `2 ^ 53 + 1`, a 64-bit integer that is not a double. -/
def bigMovie : Movie :=
  { id := 9007199254740993, title := "Lagaan", director := "Ashutosh Gowariker",
    genre := "Drama", release_year := 2001, rating := ⟨45, 1⟩, actor := "Aamir Khan",
    box_office_collection := 100 }

/-- A store holding `bigMovie` alone. -/
def bigDb : Database :=
  { rows := [bigMovie], realTextEqInt := fun _ _ => false }



/-! ## Decimal texts -/

theorem digitChar_isDigit (k : Nat) (hk : k < 10) :
    (Nat.digitChar k).isDigit = true ∧ (Nat.digitChar k).toNat - 48 = k := by
  interval_cases k <;> decide

theorem digitsValue_append (l : List Char) (c : Char) :
    digitsValue (l ++ [c]) = 10 * digitsValue l + (c.toNat - 48) := by
  simp [digitsValue, List.foldl_append]

/-- The digits that `Nat.toDigitsCore` writes in front of its accumulator are a
non-empty run of decimal digits whose value is the number. -/
theorem toDigitsCore_spec (fuel : Nat) : ∀ (n : Nat) (ds : List Char), n < fuel →
    ∃ l : List Char, Nat.toDigitsCore 10 fuel n ds = l ++ ds ∧ l ≠ [] ∧
      (∀ c ∈ l, c.isDigit = true) ∧ digitsValue l = n := by
  induction fuel with
  | zero => intro n ds h; omega
  | succ fuel ih =>
    intro n ds h
    have hd := digitChar_isDigit (n % 10) (Nat.mod_lt _ (by decide))
    simp only [Nat.toDigitsCore]
    by_cases h0 : n / 10 = 0
    · refine ⟨[Nat.digitChar (n % 10)], by simp [h0], by simp, by simpa using hd.1, ?_⟩
      simp only [digitsValue, List.foldl_cons, List.foldl_nil, hd.2]
      omega
    · obtain ⟨l, hl, hne, hdig, hval⟩ := ih (n / 10) (Nat.digitChar (n % 10) :: ds) (by omega)
      refine ⟨l ++ [Nat.digitChar (n % 10)], by simp [h0, hl], by simp, ?_, ?_⟩
      · intro c hc
        rcases List.mem_append.mp hc with hc | hc
        · exact hdig c hc
        · simp only [List.mem_singleton] at hc; rw [hc]; exact hd.1
      · rw [digitsValue_append, hval, hd.2]; omega

/-- The decimal text of a natural number. -/
theorem toString_nat_spec (n : Nat) :
    ∃ l : List Char, (toString n).data = l ∧ l ≠ [] ∧
      (∀ c ∈ l, c.isDigit = true) ∧ digitsValue l = n := by
  obtain ⟨l, hl, hne, hdig, hval⟩ := toDigitsCore_spec (n + 1) n [] (Nat.lt_succ_self n)
  refine ⟨l, ?_, hne, hdig, hval⟩
  show (Nat.repr n).data = l
  simp [Nat.repr, Nat.toDigits, hl, List.asString]

theorem isSpace_of_isDigit (c : Char) (h : c.isDigit = true) : isSpace c = false := by
  simp only [Char.isDigit, Bool.and_eq_true, decide_eq_true_eq] at h
  have h1 : (48 : UInt32).toNat ≤ c.val.toNat := h.1
  have h2 : (48 : UInt32).toNat = 48 := rfl
  have h3 : c.toNat = c.val.toNat := rfl
  simp only [isSpace, Bool.or_eq_false_iff, decide_eq_false_iff_not, Bool.and_eq_false_iff]
  omega

theorem span_digits (l : List Char) (h : ∀ c ∈ l, c.isDigit = true) :
    l.span Char.isDigit = (l, []) := by
  rw [List.span_eq_take_drop, List.takeWhile_eq_self_iff.mpr h,
    List.dropWhile_eq_nil_iff.mpr h]

theorem takeFraction_nil : takeFraction [] = (false, 0, []) := rfl

theorem takeExponent_nil : takeExponent [] = (false, true, []) := rfl

theorem takeSign_digit (c : Char) (t : List Char) (h : c.isDigit = true) :
    takeSign (c :: t) = (false, c :: t) := by
  unfold takeSign
  split
  · rename_i heq
    simp only [List.cons.injEq] at heq
    rw [heq.1] at h
    exact absurd h (by decide)
  · rename_i heq
    simp only [List.cons.injEq] at heq
    rw [heq.1] at h
    exact absurd h (by decide)
  · rfl

/-- A non-empty run of digits reads as the integer it denotes. -/
theorem applyNumericAffinity_digits (l : List Char) (hne : l ≠ [])
    (hd : ∀ c ∈ l, c.isDigit = true) :
    applyNumericAffinity ⟨l⟩ =
      if isInt64 (digitsValue l : Int) then .int (digitsValue l : Int) else .real := by
  obtain ⟨c, t, rfl⟩ := List.exists_cons_of_ne_nil hne
  have hc := hd c (by simp)
  have hlen : 0 < (c :: t).length := by simp
  have h1 : List.dropWhile isSpace (c :: t) = c :: t := by
    rw [List.dropWhile_cons, isSpace_of_isDigit c hc]; rfl
  simp only [applyNumericAffinity, h1, takeSign_digit c t hc, span_digits (c :: t) hd,
    takeFraction_nil, takeExponent_nil]
  simp

/-- A minus sign and a non-empty run of digits reads as the negated integer. -/
theorem applyNumericAffinity_neg_digits (l : List Char) (hne : l ≠ [])
    (hd : ∀ c ∈ l, c.isDigit = true) :
    applyNumericAffinity ⟨'-' :: l⟩ =
      if isInt64 (-(digitsValue l : Int)) then .int (-(digitsValue l : Int)) else .real := by
  have hsp : isSpace '-' = false := by decide
  have hlen : 0 < l.length := List.length_pos.mpr hne
  have h1 : List.dropWhile isSpace ('-' :: l) = '-' :: l := by
    rw [List.dropWhile_cons, hsp]; rfl
  have h2 : takeSign ('-' :: l) = (true, l) := rfl
  simp only [applyNumericAffinity, h1, h2, span_digits l hd, takeFraction_nil, takeExponent_nil]
  simp [hlen]

/-- Round trip of the decimal text of a 64-bit integer through NUMERIC
affinity. -/
theorem applyNumericAffinity_toString (i : Int) (h : isInt64 i) :
    applyNumericAffinity (toString i) = .int i := by
  cases i with
  | ofNat n =>
    obtain ⟨l, hl, hne, hdig, hval⟩ := toString_nat_spec n
    have e : (toString (Int.ofNat n)) = ⟨l⟩ := by
      show toString n = ⟨l⟩
      rw [← hl]
    rw [e, applyNumericAffinity_digits l hne hdig, hval]
    simp only [Int.ofNat_eq_coe] at h
    simp [h]
  | negSucc n =>
    obtain ⟨l, hl, hne, hdig, hval⟩ := toString_nat_spec (n + 1)
    have e : (toString (Int.negSucc n)) = ⟨'-' :: l⟩ := by
      show "-" ++ toString (n + 1) = ⟨'-' :: l⟩
      apply String.ext
      simp [String.data_append, hl]
    rw [e, applyNumericAffinity_neg_digits l hne hdig, hval]
    have e2 : -((n + 1 : Nat) : Int) = Int.negSucc n := by
      simp [Int.negSucc_eq]
    rw [e2]
    simp [h]

/-! ## Running the query functions -/

theorem parseStatement_all :
    parseStatement "SELECT * FROM movies" = some .selectAll := by decide

theorem parseStatement_genre :
    parseStatement "SELECT * FROM movies Where genre = ?" = some (.selectWhere .genre) := by
  decide

theorem parseStatement_id :
    parseStatement "SELECT * FROM movies WHERE id = ?" = some (.selectWhere .id) := by decide

theorem parseStatement_release_year :
    parseStatement "SELECT * FROM movies WHERE release_year = ? " =
      some (.selectWhere .release_year) := by decide

theorem Js.bind_apply {α β : Type} (x : Js α) (f : α → Js β) (w : World) :
    (x >>= f) w = match x w with
      | (.ok a, w1) => f a w1
      | (.error e, w1) => (.error e, w1) := rfl

theorem Js.pure_apply {α : Type} (a : α) (w : World) : (pure a : Js α) w = (.ok a, w) := rfl

theorem dbAll_unset (query : String) (params : List String) (sent : List Call) :
    dbAll query params ⟨none, sent⟩ = (.error .typeError, ⟨none, sent⟩) := rfl

theorem fetchAllMovies_run (d : Database) (sent : List Call) :
    fetchAllMovies ⟨some d, sent⟩ =
      (.ok ⟨"movies", .rows (d.rows.map Movie.toJs)⟩,
        ⟨some d, sent ++ [⟨"SELECT * FROM movies", []⟩]⟩) := by
  simp [fetchAllMovies, Js.bind_apply, Js.pure_apply, dbAll, Database.all, parseStatement_all,
    Statement.placeholders]

theorem fetchMoviesByGenre_run (d : Database) (sent : List Call) (genre : String) :
    fetchMoviesByGenre genre ⟨some d, sent⟩ =
      (.ok ⟨"movies", .rows ((d.rows.filter (fun m => decide (m.genre = genre))).map Movie.toJs)⟩,
        ⟨some d, sent ++ [⟨"SELECT * FROM movies Where genre = ?", [genre]⟩]⟩) := by
  simp [fetchMoviesByGenre, Js.bind_apply, Js.pure_apply, dbAll, Database.all,
    parseStatement_genre, Statement.placeholders, Column.eqParam, textColumnEq]

theorem fetchMoviesByID_run (d : Database) (sent : List Call) (id : String) :
    fetchMoviesByID id ⟨some d, sent⟩ =
      (.ok ⟨"movies", .rows ((d.rows.filter (fun m => intColumnEq d m.id id)).map Movie.toJs)⟩,
        ⟨some d, sent ++ [⟨"SELECT * FROM movies WHERE id = ?", [id]⟩]⟩) := by
  simp [fetchMoviesByID, Js.bind_apply, Js.pure_apply, dbAll, Database.all,
    parseStatement_id, Statement.placeholders, Column.eqParam]

theorem fetchMoviesByRealeaseYear_run (d : Database) (sent : List Call) (year : String) :
    fetchMoviesByRealeaseYear year ⟨some d, sent⟩ =
      (.ok ⟨"movies",
          .rows ((d.rows.filter (fun m => intColumnEq d m.release_year year)).map Movie.toJs)⟩,
        ⟨some d, sent ++ [⟨"SELECT * FROM movies WHERE release_year = ? ", [year]⟩]⟩) := by
  simp [fetchMoviesByRealeaseYear, Js.bind_apply, Js.pure_apply, dbAll, Database.all,
    parseStatement_release_year, Statement.placeholders, Column.eqParam]

theorem fetchAllMovies_unset (sent : List Call) :
    fetchAllMovies ⟨none, sent⟩ = (.error .typeError, ⟨none, sent⟩) := rfl

theorem fetchMoviesByGenre_unset (sent : List Call) (genre : String) :
    fetchMoviesByGenre genre ⟨none, sent⟩ = (.error .typeError, ⟨none, sent⟩) := rfl

theorem fetchMoviesByID_unset (sent : List Call) (id : String) :
    fetchMoviesByID id ⟨none, sent⟩ = (.error .typeError, ⟨none, sent⟩) := rfl

theorem fetchMoviesByRealeaseYear_unset (sent : List Call) (year : String) :
    fetchMoviesByRealeaseYear year ⟨none, sent⟩ = (.error .typeError, ⟨none, sent⟩) := rfl

/-- What a handler does with the outcome of its query function. -/
theorem handler_run (f : Js Envelope) (w : World) :
    (do let result ← f; return { status := 200, body := result } : Js Response) w =
      ((f w).1.map (fun a => ⟨200, a⟩), (f w).2) := by
  rw [Js.bind_apply]
  rcases f w with ⟨r, w1⟩
  cases r <;> rfl

theorem intColumnEq_toString (d : Database) (stored i : Int) (h : isInt64 i) :
    intColumnEq d stored (toString i) = decide (stored = i) := by
  simp [intColumnEq, applyNumericAffinity_toString i h]

/-- With a key, the rows that carry the key of a stored row are that row alone. -/
theorem filter_key_eq_singleton (l : List Movie) (r : Movie)
    (hu : (l.map Movie.id).Nodup) (hr : r ∈ l) :
    l.filter (fun m => decide (m.id = r.id)) = [r] := by
  induction l with
  | nil => simp at hr
  | cons a t ih =>
    simp only [List.map_cons, List.nodup_cons, List.mem_map, not_exists, not_and] at hu
    rcases List.mem_cons.mp hr with rfl | hrt
    · have hnone : t.filter (fun m => decide (m.id = r.id)) = [] := by
        rw [List.filter_eq_nil_iff]
        intro m hm
        simpa using hu.1 m hm
      simp [List.filter_cons, hnone]
    · have hne : a.id ≠ r.id := fun h => hu.1 r hrt h.symm
      simp [List.filter_cons, hne, ih hu.2 hrt]

/-- A row whose integer columns are doubles reaches JavaScript unchanged. -/
theorem Movie.toJs_of_jsExact (m : Movie) (h : m.jsExact) : m.toJs = m := by
  obtain ⟨h1, h2, h3⟩ := h
  unfold SwatiBD41.jsExact at h1 h2 h3
  simp [Movie.toJs, h1, h2, h3]

/-- Every integer of magnitude up to `2 ^ 53` is a double. -/
theorem jsExact_of_small (i : Int) (h1 : -9007199254740992 ≤ i) (h2 : i ≤ 9007199254740992) :
    jsExact i := by
  have hn : i.natAbs ≤ 9007199254740992 := by omega
  unfold jsExact toJsNumber roundToDouble
  simp only [hn, if_true]
  split <;> omega

/-! ## The claims -/

/-- C1: with the store opened, for every store and every genre string `g`,
`fetchMoviesByGenre g` resolves to `{movies: L}` and `GET /movies/genre/g`
answers 200 with that body, where `L` lists the store's rows kept by the test
`genre = g`, the matching rows and no other, each once, in storage order, each
as the row object JavaScript receives for it.  On the documented rows,
`Biography` gives Dangal then Sanju. -/
theorem fetchMoviesByGenre_returns_matching_rows (d : Database) (sent : List Call)
    (g : String) :
    (fetchMoviesByGenre g ⟨some d, sent⟩).1 =
        .ok ⟨"movies", .rows ((d.rows.filter (fun m => decide (m.genre = g))).map Movie.toJs)⟩ ∧
      (app (.moviesByGenre g) ⟨some d, sent⟩).1 =
        .ok ⟨200, ⟨"movies",
          .rows ((d.rows.filter (fun m => decide (m.genre = g))).map Movie.toJs)⟩⟩ ∧
      (app (.moviesByGenre "Biography") sampleWorld).1 =
        .ok ⟨200, ⟨"movies", .rows [dangal, sanju]⟩⟩ := by
  refine ⟨?_, ?_, ?_⟩
  · rw [fetchMoviesByGenre_run]
  · simp only [app, getMoviesByGenre, handler_run, fetchMoviesByGenre_run, Except.map]
  · simp only [app, getMoviesByGenre, handler_run, sampleWorld, fetchMoviesByGenre_run,
      Except.map]
    decide

/-- C2, as stated, fails: in the store holding one row of id `2 ^ 53 + 1`, ids
are unique and that id is present, yet the lookup of its decimal text resolves
to one row object whose id is `2 ^ 53`, so no one-element result carries the
requested id. -/
theorem fetchMoviesByID_large_id_not_returned :
    bigDb.uniqueIds ∧ (9007199254740993 : Int) ∈ bigDb.rows.map Movie.id ∧
      (fetchMoviesByID (toString (9007199254740993 : Int)) ⟨some bigDb, []⟩).1 =
        .ok ⟨"movies", .rows [{ bigMovie with id := 9007199254740992 }]⟩ ∧
      ¬ ∃ m : Movie, m.id = 9007199254740993 ∧
        (fetchMoviesByID (toString (9007199254740993 : Int)) ⟨some bigDb, []⟩).1 =
          .ok ⟨"movies", .rows [m]⟩ := by
  have hrun : (fetchMoviesByID (toString (9007199254740993 : Int)) ⟨some bigDb, []⟩).1 =
      .ok ⟨"movies", .rows [{ bigMovie with id := 9007199254740992 }]⟩ := by decide
  refine ⟨by decide, by decide, hrun, ?_⟩
  rintro ⟨m, hid, hm⟩
  rw [hrun] at hm
  simp only [Except.ok.injEq, Envelope.mk.injEq, JsonValue.rows.injEq, List.cons.injEq,
    and_true, true_and] at hm
  rw [← hm] at hid
  exact absurd hid (by decide)

/-- C2, amended: with the store opened, for every store with unique ids and
every id `i` that a row has, `i` a 64-bit integer that is a double (as every
integer of magnitude up to `2 ^ 53` is), `fetchMoviesByID` applied to the
decimal text of `i` resolves to `{movies: L}` with `L` of exactly one element,
the row object of the stored row with that id, and the element's id is `i`;
`GET /movies/details/i` answers 200 with that body. -/
theorem fetchMoviesByID_present_returns_the_row (d : Database) (sent : List Call) (i : Int)
    (hu : d.uniqueIds) (hi : i ∈ d.rows.map Movie.id) (h64 : isInt64 i) (hx : jsExact i) :
    ∃ m : Movie, m ∈ d.rows ∧ m.id = i ∧ m.toJs.id = i ∧
      (fetchMoviesByID (toString i) ⟨some d, sent⟩).1 = .ok ⟨"movies", .rows [m.toJs]⟩ ∧
      (app (.movieDetails (toString i)) ⟨some d, sent⟩).1 =
        .ok ⟨200, ⟨"movies", .rows [m.toJs]⟩⟩ := by
  obtain ⟨m, hm, rfl⟩ := List.mem_map.mp hi
  have hf : d.rows.filter (fun r => intColumnEq d r.id (toString m.id)) = [m] := by
    simp only [intColumnEq_toString d _ m.id h64]
    exact filter_key_eq_singleton d.rows m hu hm
  refine ⟨m, hm, rfl, hx, ?_, ?_⟩
  · rw [fetchMoviesByID_run, hf]; rfl
  · simp only [app, getMovieDetails, handler_run, fetchMoviesByID_run, hf, Except.map,
      List.map_cons, List.map_nil]

/-- Witness of C2, amended: id 3 in the store of the documented rows. -/
theorem fetchMoviesByID_present_returns_the_row_witness :
    sampleDb.uniqueIds ∧ (3 : Int) ∈ sampleDb.rows.map Movie.id ∧ isInt64 3 ∧ jsExact 3 ∧
      ∃ m : Movie, m ∈ sampleDb.rows ∧ m.id = 3 ∧ m.toJs.id = 3 ∧
        (fetchMoviesByID (toString (3 : Int)) ⟨some sampleDb, []⟩).1 =
          .ok ⟨"movies", .rows [m.toJs]⟩ ∧
        (app (.movieDetails (toString (3 : Int))) ⟨some sampleDb, []⟩).1 =
          .ok ⟨200, ⟨"movies", .rows [m.toJs]⟩⟩ :=
  ⟨by decide, by decide, by decide, by decide,
    fetchMoviesByID_present_returns_the_row sampleDb [] 3 (by decide) (by decide) (by decide)
      (by decide)⟩

/-- C3: with the store opened, for every store and every 64-bit integer id `i`
that no row has, `GET /movies/details/i` answers with status 200 and the body
`{movies: []}`: an empty sequence, not an error. -/
theorem movieDetails_absent_id_gives_empty_list (d : Database) (sent : List Call) (i : Int)
    (h64 : isInt64 i) (hno : ∀ m ∈ d.rows, m.id ≠ i) :
    (app (.movieDetails (toString i)) ⟨some d, sent⟩).1 =
      .ok ⟨200, ⟨"movies", .rows []⟩⟩ := by
  have hf : d.rows.filter (fun r => intColumnEq d r.id (toString i)) = [] := by
    rw [List.filter_eq_nil_iff]
    intro m hm
    simpa [intColumnEq_toString d _ i h64] using hno m hm
  simp only [app, getMovieDetails, handler_run, fetchMoviesByID_run, hf, Except.map,
    List.map_nil]

/-- Witness of C3: id 2, which none of the documented rows has. -/
theorem movieDetails_absent_id_gives_empty_list_witness :
    isInt64 2 ∧ (∀ m ∈ sampleDb.rows, m.id ≠ 2) ∧
      (app (.movieDetails (toString (2 : Int))) ⟨some sampleDb, []⟩).1 =
        .ok ⟨200, ⟨"movies", .rows []⟩⟩ :=
  ⟨by decide, by decide,
    movieDetails_absent_id_gives_empty_list sampleDb [] 2 (by decide) (by decide)⟩

/-- C4: on the store of the documented rows, the lookup of id 3 resolves to
`{movies: [row]}`, a sequence under the plural key, and not to the envelope
`{movie: row}` that the doc comment of Exercise 3 shows; the response of
`GET /movies/details/3` carries the same body. -/
theorem fetchMoviesByID_differs_from_documented_output :
    (fetchMoviesByID "3" sampleWorld).1 = .ok ⟨"movies", .rows [pk]⟩ ∧
      (fetchMoviesByID "3" sampleWorld).1 ≠ .ok ⟨"movie", .row pk⟩ ∧
      (app (.movieDetails "3") sampleWorld).1 = .ok ⟨200, ⟨"movies", .rows [pk]⟩⟩ := by
  decide

/-- C5: with the store opened, for every store, `fetchAllMovies` resolves to
`{movies: L}` where `L` is the whole table, one row object for every stored row
in storage order, so its length is the row count, and `GET /movies` answers with
status 200 and that body. -/
theorem fetchAllMovies_returns_whole_table (d : Database) (sent : List Call) :
    ∃ l : List Movie, (fetchAllMovies ⟨some d, sent⟩).1 = .ok ⟨"movies", .rows l⟩ ∧
      l.length = d.rows.length ∧ l = d.rows.map Movie.toJs ∧
      (app .movies ⟨some d, sent⟩).1 = .ok ⟨200, ⟨"movies", .rows l⟩⟩ := by
  refine ⟨d.rows.map Movie.toJs, ?_, List.length_map _ _, rfl, ?_⟩
  · rw [fetchAllMovies_run]
  · simp only [app, getMovies, handler_run, fetchAllMovies_run, Except.map]

/-- C6, as stated, fails: in the store holding the one row `bigMovie`, of id
`2 ^ 53 + 1` and release year 2001, the query by the decimal text of that
release year resolves to a sequence that does not contain the row: its one
element has id `2 ^ 53`. -/
theorem fetchMoviesByRealeaseYear_large_row_not_contained :
    bigMovie ∈ bigDb.rows ∧
      (fetchMoviesByRealeaseYear (toString bigMovie.release_year) ⟨some bigDb, []⟩).1 =
        .ok ⟨"movies", .rows [{ bigMovie with id := 9007199254740992 }]⟩ ∧
      ¬ ∃ l : List Movie, bigMovie ∈ l ∧
        (fetchMoviesByRealeaseYear (toString bigMovie.release_year) ⟨some bigDb, []⟩).1 =
          .ok ⟨"movies", .rows l⟩ := by
  have hrun : (fetchMoviesByRealeaseYear (toString bigMovie.release_year) ⟨some bigDb, []⟩).1 =
      .ok ⟨"movies", .rows [{ bigMovie with id := 9007199254740992 }]⟩ := by decide
  refine ⟨by decide, hrun, ?_⟩
  rintro ⟨l, hin, hl⟩
  rw [hrun] at hl
  simp only [Except.ok.injEq, Envelope.mk.injEq, JsonValue.rows.injEq, true_and] at hl
  rw [← hl] at hin
  exact absurd hin (by decide)

/-- C6, amended: with the store opened, for every store and every row `r` in it
whose integer columns are doubles (as every integer of magnitude up to `2 ^ 53`
is) and whose release year is a 64-bit integer, `fetchMoviesByRealeaseYear`
applied to the decimal text of `r.release_year` resolves to `{movies: L}` with
`r` in `L`, and the route `GET /movies/release_year/:release_year` answers 200
with that body. -/
theorem fetchMoviesByRealeaseYear_round_trip (d : Database) (sent : List Call) (r : Movie)
    (hr : r ∈ d.rows) (h64 : isInt64 r.release_year) (hx : r.jsExact) :
    ∃ l : List Movie, r ∈ l ∧
      (fetchMoviesByRealeaseYear (toString r.release_year) ⟨some d, sent⟩).1 =
        .ok ⟨"movies", .rows l⟩ ∧
      (app (.moviesByReleaseYear (toString r.release_year)) ⟨some d, sent⟩).1 =
        .ok ⟨200, ⟨"movies", .rows l⟩⟩ := by
  refine ⟨(d.rows.filter
    (fun m => intColumnEq d m.release_year (toString r.release_year))).map Movie.toJs,
    ?_, ?_, ?_⟩
  · rw [List.mem_map]
    refine ⟨r, ?_, Movie.toJs_of_jsExact r hx⟩
    rw [List.mem_filter]
    exact ⟨hr, by simp [intColumnEq_toString d _ _ h64]⟩
  · rw [fetchMoviesByRealeaseYear_run]
  · simp only [app, getMoviesByReleaseYear, handler_run, fetchMoviesByRealeaseYear_run,
      Except.map]

/-- Witness of C6, amended: the row Sultan (2016) in the store of the documented
rows. -/
theorem fetchMoviesByRealeaseYear_round_trip_witness :
    sultan ∈ sampleDb.rows ∧ isInt64 sultan.release_year ∧ sultan.jsExact ∧
      ∃ l : List Movie, sultan ∈ l ∧
        (fetchMoviesByRealeaseYear (toString sultan.release_year) ⟨some sampleDb, []⟩).1 =
          .ok ⟨"movies", .rows l⟩ ∧
        (app (.moviesByReleaseYear (toString sultan.release_year)) ⟨some sampleDb, []⟩).1 =
          .ok ⟨200, ⟨"movies", .rows l⟩⟩ :=
  ⟨by decide, by decide, by decide,
    fetchMoviesByRealeaseYear_round_trip sampleDb [] sultan (by decide) (by decide)
      (by decide)⟩

/-- C7: while `db` is unset, each of the four query functions, for every
parameter, rejects with the `TypeError` (it resolves to no envelope, and nothing
reaches the driver), and each of the four handlers that call them rejects with
the same error: none of them sends a response. -/
theorem unset_handle_rejects (sent : List Call) (p : String) :
    fetchAllMovies ⟨none, sent⟩ = (.error .typeError, ⟨none, sent⟩) ∧
      fetchMoviesByGenre p ⟨none, sent⟩ = (.error .typeError, ⟨none, sent⟩) ∧
      fetchMoviesByID p ⟨none, sent⟩ = (.error .typeError, ⟨none, sent⟩) ∧
      fetchMoviesByRealeaseYear p ⟨none, sent⟩ = (.error .typeError, ⟨none, sent⟩) ∧
      app .movies ⟨none, sent⟩ = (.error .typeError, ⟨none, sent⟩) ∧
      app (.moviesByGenre p) ⟨none, sent⟩ = (.error .typeError, ⟨none, sent⟩) ∧
      app (.movieDetails p) ⟨none, sent⟩ = (.error .typeError, ⟨none, sent⟩) ∧
      app (.moviesByReleaseYear p) ⟨none, sent⟩ = (.error .typeError, ⟨none, sent⟩) :=
  ⟨rfl, rfl, rfl, rfl, rfl, rfl, rfl, rfl⟩

/-- C8: with the store opened, each parameterised query function makes one call
to the driver whose statement text is a constant with one placeholder, the same
for every parameter value `p`, and whose bind list is exactly `[p]`. -/
theorem bind_values_are_positional (d : Database) (sent : List Call) :
    (∃ text : String, countPlaceholders text = 1 ∧ ∀ p : String,
        (fetchMoviesByGenre p ⟨some d, sent⟩).2.sent = sent ++ [⟨text, [p]⟩]) ∧
      (∃ text : String, countPlaceholders text = 1 ∧ ∀ p : String,
        (fetchMoviesByID p ⟨some d, sent⟩).2.sent = sent ++ [⟨text, [p]⟩]) ∧
      (∃ text : String, countPlaceholders text = 1 ∧ ∀ p : String,
        (fetchMoviesByRealeaseYear p ⟨some d, sent⟩).2.sent = sent ++ [⟨text, [p]⟩]) := by
  refine ⟨⟨"SELECT * FROM movies Where genre = ?", by decide, fun p => ?_⟩,
    ⟨"SELECT * FROM movies WHERE id = ?", by decide, fun p => ?_⟩,
    ⟨"SELECT * FROM movies WHERE release_year = ? ", by decide, fun p => ?_⟩⟩
  · rw [fetchMoviesByGenre_run]
  · rw [fetchMoviesByID_run]
  · rw [fetchMoviesByRealeaseYear_run]

/-- C9: for every module state and every request to one of the five routes, the
store after the request is the store before it, and the same request repeated in
the state the first one left gets the same outcome. -/
theorem requests_leave_store_unchanged (w : World) (req : Request) :
    (app req w).2.db = w.db ∧ (app req (app req w).2).1 = (app req w).1 := by
  rcases w with ⟨db, sent⟩
  cases db with
  | none => cases req <;> exact ⟨rfl, rfl⟩
  | some d =>
    cases req with
    | root => exact ⟨rfl, rfl⟩
    | movies => simp only [app, getMovies, handler_run, fetchAllMovies_run, and_self]
    | moviesByGenre g =>
      simp only [app, getMoviesByGenre, handler_run, fetchMoviesByGenre_run, and_self]
    | movieDetails i =>
      simp only [app, getMovieDetails, handler_run, fetchMoviesByID_run, and_self]
    | moviesByReleaseYear y =>
      simp only [app, getMoviesByReleaseYear, handler_run, fetchMoviesByRealeaseYear_run,
        and_self]

/-- C10: `GET /` answers with status 200 and the body
`{message: "BD4.1 CW - SQL Queries & async/await"}` in every module state, the
handle unset or the store empty included, and leaves the state as it was. -/
theorem root_answers_banner (w : World) :
    app .root w =
      (.ok ⟨200, ⟨"message", .str "BD4.1 CW - SQL Queries & async/await"⟩⟩, w) := rfl

end SwatiBD41
